import Mathlib

/-!
Verification of the meal-battle resolver
(`meal_max/models/battle_model.py`, class `BattleModel`).

The embedding is shallow: the mutable `combatants` list becomes explicit
state passing over `List Meal`; Python floats become exact rationals `ℚ`;
the fallible operations return `Except String`; the two side-effecting
calls to the stats collaborator (`update_meal_stats`) are reified as a
list of `(id, outcome)` events in the battle result; the external random
draw (`get_random`) is passed in as a parameter.
-/

/-- The `Meal` record (dataclass from `kitchen_model.py`), with exactly the
fields the battle model reads: `id`, `meal` (display name), `cuisine`,
`price`, `difficulty`.  Equality is structural, as for a Python dataclass. -/
structure Meal where
  id : Int
  meal : String
  cuisine : String
  price : ℚ
  difficulty : String
deriving DecidableEq, Repr

/-- The dictionary `{"HIGH": 1, "MED": 2, "LOW": 3}` in
`get_battle_score`; lookup of any other key is a `KeyError`, i.e. `none`. -/
def difficulty_modifier (d : String) : Option ℚ :=
  if d = "HIGH" then some 1
  else if d = "MED" then some 2
  else if d = "LOW" then some 3
  else none

/-- `BattleModel.get_battle_score`:
`score = (combatant.price * len(combatant.cuisine)) - difficulty_modifier[combatant.difficulty]`.
Returns `none` exactly when the dictionary lookup raises `KeyError`. -/
def get_battle_score (combatant : Meal) : Option ℚ :=
  (difficulty_modifier combatant.difficulty).map
    (fun m => combatant.price * (combatant.cuisine.length : ℚ) - m)

/-- Everything a successful `BattleModel.battle` call produces: the
returned winner name, the `update_meal_stats` calls in order, and the
`combatants` list after the loser is removed. -/
structure BattleResult where
  winner_name : String
  stats : List (Int × String)
  combatants : List Meal
deriving DecidableEq, Repr

/-- `BattleModel.battle`, with the draw from `get_random()` passed in as
`random_number`.  Mirrors the source: fewer than two combatants raises
`ValueError`; the first two roster entries are scored; a `KeyError` from
either score propagates; `delta = abs(score_1 - score_2) / 100`; if
`delta > random_number` combatant 1 wins, otherwise combatant 2 wins;
the stats collaborator records the win then the loss; `combatants.remove(loser)`
drops the first entry equal to the loser (`List.erase`). -/
def battle (combatants : List Meal) (random_number : ℚ) :
    Except String BattleResult :=
  match combatants with
  | combatant_1 :: combatant_2 :: _ =>
    match get_battle_score combatant_1, get_battle_score combatant_2 with
    | some score_1, some score_2 =>
      let delta := |score_1 - score_2| / 100
      if delta > random_number then
        .ok ⟨combatant_1.meal,
             [(combatant_1.id, "win"), (combatant_2.id, "loss")],
             combatants.erase combatant_2⟩
      else
        .ok ⟨combatant_2.meal,
             [(combatant_2.id, "win"), (combatant_1.id, "loss")],
             combatants.erase combatant_1⟩
    | _, _ => .error "KeyError"
  | _ => .error "Two combatants must be prepped for a battle."

/-- `BattleModel.clear_combatants`: `self.combatants.clear()`. -/
def clear_combatants (_combatants : List Meal) : List Meal := []

/-- `BattleModel.get_combatants`: returns the current list, no mutation. -/
def get_combatants (combatants : List Meal) : List Meal := combatants

/-- `BattleModel.prep_combatant`: raises `ValueError` when the list already
holds two (or more) entries, otherwise appends. -/
def prep_combatant (combatants : List Meal) (combatant_data : Meal) :
    Except String (List Meal) :=
  if combatants.length ≥ 2 then
    .error "Combatant list is full, cannot add more combatants."
  else
    .ok (combatants ++ [combatant_data])

/-- One call against the resolver's API.  `battle` carries the random draw
it would consume; `list` is `get_combatants`. -/
inductive Op where
  | prep (m : Meal)
  | battle (r : ℚ)
  | clear
  | list
deriving Repr

/-- Apply one operation to the roster.  A failing call leaves the state
unchanged (in the source, `ValueError`/`KeyError` is raised before any
mutation of `self.combatants`). -/
def apply_op (combatants : List Meal) : Op → List Meal
  | .prep m =>
    match prep_combatant combatants m with
    | .ok s => s
    | .error _ => combatants
  | .battle r =>
    match battle combatants r with
    | .ok res => res.combatants
    | .error _ => combatants
  | .clear => clear_combatants combatants
  | .list => get_combatants combatants

/-- Roster reached from a newly constructed `BattleModel`
(`self.combatants = []`) by a sequence of API calls. -/
def run_ops (ops : List Op) : List Meal :=
  ops.foldl apply_op []

/-- Combatant A of the spec's determinism example:
`Meal(1, "Meal 1", "Cuisine 1", 1, "LOW")`. -/
def mealA : Meal := ⟨1, "Meal 1", "Cuisine 1", 1, "LOW"⟩

/-- Combatant B of the spec's determinism example:
`Meal(2, "Meal 2", "Cuisine 2", 2, "HIGH")`. -/
def mealB : Meal := ⟨2, "Meal 2", "Cuisine 2", 2, "HIGH"⟩

/-! ### Helper lemmas -/

lemma erase_pair_fst (a b : Meal) : ([a, b] : List Meal).erase a = [b] := by
  simp [List.erase_cons]

lemma erase_pair_snd (a b : Meal) : ([a, b] : List Meal).erase b = [a] := by
  by_cases h : a = b
  · subst h; simp [List.erase_cons]
  · simp [List.erase_cons, h]

lemma battle_cons_cons (a b : Meal) (t : List Meal) (r : ℚ) :
    battle (a :: b :: t) r =
      match get_battle_score a, get_battle_score b with
      | some s1, some s2 =>
        if |s1 - s2| / 100 > r then
          .ok ⟨a.meal, [(a.id, "win"), (b.id, "loss")], (a :: b :: t).erase b⟩
        else
          .ok ⟨b.meal, [(b.id, "win"), (a.id, "loss")], (a :: b :: t).erase a⟩
      | _, _ => .error "KeyError" := rfl

lemma battle_pair_of_scores (a b : Meal) (r sa sb : ℚ)
    (ha : get_battle_score a = some sa) (hb : get_battle_score b = some sb) :
    battle [a, b] r =
      if |sa - sb| / 100 > r then
        .ok ⟨a.meal, [(a.id, "win"), (b.id, "loss")], [a]⟩
      else
        .ok ⟨b.meal, [(b.id, "win"), (a.id, "loss")], [b]⟩ := by
  rw [show ([a, b] : List Meal) = a :: b :: [] from rfl, battle_cons_cons, ha, hb]
  rw [show (a :: b :: [] : List Meal) = [a, b] from rfl, erase_pair_fst, erase_pair_snd]

lemma score_mealA : get_battle_score mealA = some 6 := by
  simp [get_battle_score, difficulty_modifier, mealA]
  norm_num [show "Cuisine 1".length = 9 from by decide]

lemma score_mealB : get_battle_score mealB = some 17 := by
  simp [get_battle_score, difficulty_modifier, mealB]
  norm_num [show "Cuisine 2".length = 9 from by decide]

lemma battle_example_r10 :
    battle [mealA, mealB] (1/10) =
      .ok ⟨"Meal 1", [(1, "win"), (2, "loss")], [mealA]⟩ := by
  rw [battle_pair_of_scores mealA mealB (1/10) 6 17 score_mealA score_mealB]
  norm_num [mealA, mealB]

lemma battle_example_r50 :
    battle [mealA, mealB] (1/2) =
      .ok ⟨"Meal 2", [(2, "win"), (1, "loss")], [mealB]⟩ := by
  rw [battle_pair_of_scores mealA mealB (1/2) 6 17 score_mealA score_mealB]
  norm_num [mealA, mealB]

/-! ### Claim theorems -/

/-- C1: For a roster holding exactly two entities `a`, `b` in insertion
order and a random draw `r` in `[0,1)`, `battle` computes
`gap = |score(a) - score(b)| / 100` and declares `a` the winner and `b`
the loser when `gap > r`, and otherwise `b` the winner and `a` the loser;
in particular when the scores are equal, `b` wins for every `r`. -/
theorem battle_decision_rule (a b : Meal) (r sa sb : ℚ)
    (ha : get_battle_score a = some sa) (hb : get_battle_score b = some sb)
    (hr0 : 0 ≤ r) (hr1 : r < 1) :
    (|sa - sb| / 100 > r →
      battle [a, b] r = .ok ⟨a.meal, [(a.id, "win"), (b.id, "loss")], [a]⟩) ∧
    (¬ (|sa - sb| / 100 > r) →
      battle [a, b] r = .ok ⟨b.meal, [(b.id, "win"), (a.id, "loss")], [b]⟩) ∧
    (sa = sb →
      battle [a, b] r = .ok ⟨b.meal, [(b.id, "win"), (a.id, "loss")], [b]⟩) := by
  rw [battle_pair_of_scores a b r sa sb ha hb]
  refine ⟨fun h => by rw [if_pos h], fun h => by rw [if_neg h], fun h => ?_⟩
  rw [if_neg]
  rw [h]
  simp
  exact hr0

/-- C1 witness: the decision rule instantiated at the spec's example
combatants with `r = 1/10`. -/
theorem battle_decision_rule_witness :
    battle [mealA, mealB] (1/10) =
      .ok ⟨mealA.meal, [(mealA.id, "win"), (mealB.id, "loss")], [mealA]⟩ :=
  (battle_decision_rule mealA mealB (1/10) 6 17 score_mealA score_mealB
    (by norm_num) (by norm_num)).1 (by norm_num)

/-- C2: For every entity whose tier is `HIGH`, `MED` or `LOW`,
`get_battle_score` returns
`price * length(cuisine) - penalty` with penalty 1, 2, 3 respectively;
it is a pure function of the entity's attributes. -/
theorem get_battle_score_formula (e : Meal) :
    (e.difficulty = "HIGH" →
      get_battle_score e = some (e.price * (e.cuisine.length : ℚ) - 1)) ∧
    (e.difficulty = "MED" →
      get_battle_score e = some (e.price * (e.cuisine.length : ℚ) - 2)) ∧
    (e.difficulty = "LOW" →
      get_battle_score e = some (e.price * (e.cuisine.length : ℚ) - 3)) := by
  refine ⟨fun h => ?_, fun h => ?_, fun h => ?_⟩ <;>
    simp [get_battle_score, difficulty_modifier, h]

/-- C2 witness: the formula instantiated at a `LOW`-tier entity. -/
theorem get_battle_score_formula_witness :
    get_battle_score mealA = some (mealA.price * (mealA.cuisine.length : ℚ) - 3) :=
  (get_battle_score_formula mealA).2.2 rfl

/-- C3: On a roster that does not hold exactly two entities (under the
data-model invariant that the roster holds at most two), `battle` fails
with the insufficient-combatants `ValueError` and leaves the roster
unchanged; in particular rosters of size 0 or 1 always fail. -/
theorem battle_insufficient (s : List Meal) (r : ℚ)
    (hinv : s.length ≤ 2) (hne : s.length ≠ 2) :
    battle s r = .error "Two combatants must be prepped for a battle." ∧
    apply_op s (Op.battle r) = s := by
  have herr : battle s r = .error "Two combatants must be prepped for a battle." := by
    match s with
    | [] => rfl
    | [_] => rfl
    | a :: b :: t => simp at hinv; simp [hinv] at hne
  exact ⟨herr, by simp [apply_op, herr]⟩

/-- C3 witness: a size-1 roster fails and is left unchanged. -/
theorem battle_insufficient_witness :
    ([mealA] : List Meal).length ≠ 2 ∧
    (battle [mealA] 0 = .error "Two combatants must be prepped for a battle." ∧
     apply_op [mealA] (Op.battle 0) = [mealA]) :=
  ⟨by decide, battle_insufficient [mealA] 0 (by decide) (by decide)⟩

/-- C4: A successful battle on a two-entity roster records a win for the
winner's id then a loss for the loser's id, removes exactly the loser
(roster size decreases by one, only the winner remains), and returns the
winner's display name, which is the remaining entity's name. -/
theorem battle_success_effects (a b : Meal) (r : ℚ) (res : BattleResult)
    (h : battle [a, b] r = .ok res) :
    ∃ winner loser : Meal,
      ((winner = a ∧ loser = b) ∨ (winner = b ∧ loser = a)) ∧
      res.stats = [(winner.id, "win"), (loser.id, "loss")] ∧
      res.combatants = [winner] ∧
      res.combatants.length + 1 = ([a, b] : List Meal).length ∧
      res.winner_name = winner.meal := by
  rw [battle_cons_cons] at h
  cases hga : get_battle_score a <;> rw [hga] at h
  · cases hgb : get_battle_score b <;> rw [hgb] at h <;> simp at h
  · cases hgb : get_battle_score b <;> rw [hgb] at h
    · simp at h
    · dsimp only at h
      split_ifs at h with hgt
      · injection h with h'
        refine ⟨a, b, Or.inl ⟨rfl, rfl⟩, ?_, ?_, ?_, ?_⟩ <;>
          simp [← h', erase_pair_snd]
      · injection h with h'
        refine ⟨b, a, Or.inr ⟨rfl, rfl⟩, ?_, ?_, ?_, ?_⟩ <;>
          simp [← h', erase_pair_fst]

/-- C4 witness: the effects at the spec's example battle with `r = 1/10`. -/
theorem battle_success_effects_witness :
    ∃ winner loser : Meal,
      ((winner = mealA ∧ loser = mealB) ∨ (winner = mealB ∧ loser = mealA)) ∧
      (⟨"Meal 1", [(1, "win"), (2, "loss")], [mealA]⟩ : BattleResult).stats =
        [(winner.id, "win"), (loser.id, "loss")] ∧
      (⟨"Meal 1", [(1, "win"), (2, "loss")], [mealA]⟩ : BattleResult).combatants =
        [winner] ∧
      (⟨"Meal 1", [(1, "win"), (2, "loss")], [mealA]⟩ : BattleResult).combatants.length + 1 =
        ([mealA, mealB] : List Meal).length ∧
      (⟨"Meal 1", [(1, "win"), (2, "loss")], [mealA]⟩ : BattleResult).winner_name =
        winner.meal :=
  battle_success_effects mealA mealB (1/10)
    ⟨"Meal 1", [(1, "win"), (2, "loss")], [mealA]⟩ battle_example_r10

/-- C5: `prep_combatant` on a full roster (two entries) fails with the
capacity `ValueError` regardless of the entity and leaves the roster
unchanged; on a roster of fewer than two it appends at the end with no
duplicate check; so after prepping `A` then `B`, a third prep of `C`
fails and the roster still equals `[A, B]`. -/
theorem prep_combatant_spec (s : List Meal) (e A B C : Meal) :
    (s.length = 2 →
      prep_combatant s e = .error "Combatant list is full, cannot add more combatants.") ∧
    (s.length < 2 → prep_combatant s e = .ok (s ++ [e])) ∧
    prep_combatant [] A = .ok [A] ∧
    prep_combatant [A] B = .ok [A, B] ∧
    prep_combatant [A, B] C = .error "Combatant list is full, cannot add more combatants." ∧
    apply_op [A, B] (Op.prep C) = [A, B] := by
  refine ⟨fun h => ?_, fun h => ?_, ?_, ?_, ?_, ?_⟩
  · simp [prep_combatant, h]
  · rw [prep_combatant, if_neg (by omega)]
  · simp [prep_combatant]
  · simp [prep_combatant]
  · simp [prep_combatant]
  · simp [apply_op, prep_combatant]

/-- C5 witness: capacity failure on a concrete full roster and append on a
concrete size-1 roster. -/
theorem prep_combatant_spec_witness :
    prep_combatant [mealA, mealB] mealA =
      .error "Combatant list is full, cannot add more combatants." ∧
    prep_combatant [mealA] mealB = .ok ([mealA] ++ [mealB]) :=
  ⟨(prep_combatant_spec [mealA, mealB] mealA mealA mealA mealA).1 rfl,
   (prep_combatant_spec [mealA] mealB mealA mealA mealA).2.1 (by decide)⟩

/-- C6: Determinism of the spec's worked example: A = `Meal(1, "Meal 1",
"Cuisine 1", 1, "LOW")` scores 6, B = `Meal(2, "Meal 2", "Cuisine 2", 2,
"HIGH")` scores 17, the gap is `11/100 = 0.11`; with `r = 0.10` the battle
returns A's name, with `r = 0.50` it returns B's name. -/
theorem battle_determinism_example :
    get_battle_score mealA = some 6 ∧
    get_battle_score mealB = some 17 ∧
    |(6 : ℚ) - 17| / 100 = 11 / 100 ∧
    battle [mealA, mealB] (1/10) =
      .ok ⟨"Meal 1", [(1, "win"), (2, "loss")], [mealA]⟩ ∧
    battle [mealA, mealB] (1/2) =
      .ok ⟨"Meal 2", [(2, "win"), (1, "loss")], [mealB]⟩ :=
  ⟨score_mealA, score_mealB, by norm_num, battle_example_r10, battle_example_r50⟩

lemma battle_ok_combatants (s : List Meal) (r : ℚ) (res : BattleResult)
    (h : battle s r = .ok res) : ∃ c, res.combatants = s.erase c := by
  match s with
  | [] => simp [battle] at h
  | [a] => simp [battle] at h
  | a :: b :: t =>
    rw [battle_cons_cons] at h
    cases hga : get_battle_score a <;> rw [hga] at h
    · cases hgb : get_battle_score b <;> rw [hgb] at h <;> simp at h
    · cases hgb : get_battle_score b <;> rw [hgb] at h
      · simp at h
      · dsimp only at h
        split_ifs at h with hgt
        · injection h with h'
          exact ⟨b, by rw [← h']⟩
        · injection h with h'
          exact ⟨a, by rw [← h']⟩

lemma apply_op_length_le (s : List Meal) (op : Op) (h : s.length ≤ 2) :
    (apply_op s op).length ≤ 2 := by
  cases op with
  | prep m =>
    show (match prep_combatant s m with
          | .ok s => s
          | .error _ => s).length ≤ 2
    by_cases hfull : s.length ≥ 2
    · rw [show prep_combatant s m = .error "Combatant list is full, cannot add more combatants."
        from by simp [prep_combatant, hfull]]
      exact h
    · rw [show prep_combatant s m = .ok (s ++ [m])
        from by rw [prep_combatant, if_neg hfull]]
      simp
      omega
  | battle r =>
    show (match battle s r with
          | .ok res => res.combatants
          | .error _ => s).length ≤ 2
    cases hb : battle s r with
    | error e => exact h
    | ok res =>
      obtain ⟨c, hc⟩ := battle_ok_combatants s r res hb
      calc (res.combatants).length = (s.erase c).length := by rw [hc]
        _ ≤ s.length := (s.erase_sublist c).length_le
        _ ≤ 2 := h
  | clear => exact Nat.zero_le 2
  | list => exact h

/-- C7: A newly constructed resolver has an empty roster, and the roster
reached by any sequence of API calls (`prep`, `battle`, `clear`, `list`)
holds at most two entities: no reachable state has three or more. -/
theorem roster_length_invariant :
    run_ops [] = [] ∧ ∀ ops : List Op, (run_ops ops).length ≤ 2 := by
  refine ⟨rfl, fun ops => ?_⟩
  suffices hgen : ∀ (l : List Op) (s : List Meal),
      s.length ≤ 2 → (l.foldl apply_op s).length ≤ 2 from
    hgen ops [] (by simp)
  intro l
  induction l with
  | nil => intro s hs; simpa using hs
  | cons op l ih => intro s hs; exact ih _ (apply_op_length_le s op hs)

/-- C8: The battle score depends only on `price`, the length of
`cuisine`, and `difficulty` — never on `id` or `name`: two entities
agreeing on those three agree on their score. -/
theorem score_noninterference (a b : Meal) (hp : a.price = b.price)
    (hl : a.cuisine.length = b.cuisine.length)
    (hd : a.difficulty = b.difficulty) :
    get_battle_score a = get_battle_score b := by
  simp [get_battle_score, hp, hl, hd]

/-- C8 witness: two entities differing only in `id` and `name` score
identically. -/
theorem score_noninterference_witness :
    get_battle_score ⟨1, "Meal 1", "Cuisine 1", 1, "LOW"⟩ =
      get_battle_score ⟨99, "Other", "Cuisine 1", 1, "LOW"⟩ :=
  score_noninterference _ _ rfl rfl rfl

/-- C9: `clear_combatants` always yields the empty roster (size 0) from
any prior state, never fails, and is idempotent. -/
theorem clear_combatants_spec (s : List Meal) :
    clear_combatants s = [] ∧
    (clear_combatants s).length = 0 ∧
    clear_combatants (clear_combatants s) = clear_combatants s :=
  ⟨rfl, rfl, rfl⟩

/-- C10: The battle score is defined exactly on the tiers `HIGH`, `MED`,
`LOW`: for those the modifier lookup succeeds and a score is returned,
and for any other difficulty string the lookup fails (`KeyError` in the
source), so under the precondition that the tier is in the enumeration
the error branch is unreachable. -/
theorem get_battle_score_domain (e : Meal) :
    ((get_battle_score e).isSome = true ↔
      (e.difficulty = "HIGH" ∨ e.difficulty = "MED" ∨ e.difficulty = "LOW")) ∧
    (get_battle_score e = none ↔
      ¬ (e.difficulty = "HIGH" ∨ e.difficulty = "MED" ∨ e.difficulty = "LOW")) := by
  by_cases h1 : e.difficulty = "HIGH" <;> by_cases h2 : e.difficulty = "MED" <;>
    by_cases h3 : e.difficulty = "LOW" <;>
      simp [get_battle_score, difficulty_modifier, h1, h2, h3]

/-- C7 witness: the invariant at a concrete call sequence that attempts a
third prep. -/
theorem roster_length_invariant_witness :
    (run_ops [Op.prep mealA, Op.prep mealB, Op.prep mealA]).length ≤ 2 :=
  roster_length_invariant.2 [Op.prep mealA, Op.prep mealB, Op.prep mealA]

/-- C9 witness: clearing a concrete two-entity roster. -/
theorem clear_combatants_spec_witness :
    clear_combatants [mealA, mealB] = [] ∧
    (clear_combatants [mealA, mealB]).length = 0 ∧
    clear_combatants (clear_combatants [mealA, mealB]) =
      clear_combatants [mealA, mealB] :=
  clear_combatants_spec [mealA, mealB]

/-- C10 witness: the domain characterization at an entity with an
out-of-enumeration tier. -/
theorem get_battle_score_domain_witness :
    ((get_battle_score ⟨3, "Meal 3", "Cuisine 3", 1, "EXTREME"⟩).isSome = true ↔
      ((⟨3, "Meal 3", "Cuisine 3", 1, "EXTREME"⟩ : Meal).difficulty = "HIGH" ∨
       (⟨3, "Meal 3", "Cuisine 3", 1, "EXTREME"⟩ : Meal).difficulty = "MED" ∨
       (⟨3, "Meal 3", "Cuisine 3", 1, "EXTREME"⟩ : Meal).difficulty = "LOW")) ∧
    (get_battle_score ⟨3, "Meal 3", "Cuisine 3", 1, "EXTREME"⟩ = none ↔
      ¬ ((⟨3, "Meal 3", "Cuisine 3", 1, "EXTREME"⟩ : Meal).difficulty = "HIGH" ∨
         (⟨3, "Meal 3", "Cuisine 3", 1, "EXTREME"⟩ : Meal).difficulty = "MED" ∨
         (⟨3, "Meal 3", "Cuisine 3", 1, "EXTREME"⟩ : Meal).difficulty = "LOW")) :=
  get_battle_score_domain ⟨3, "Meal 3", "Cuisine 3", 1, "EXTREME"⟩
